import Mathlib

/-
Verification of the certificate bootstrap/enrollment core of the
bring-your-own-host provider, a shallow embedding of
agent/registration/csr.go together with the k8s.io/client-go library
functions that file calls (keyutil.LoadOrGenerateKeyFile,
keyutil.ParsePrivateKeyPEM, csr.RequestCertificate, clientcmd.WriteToFile).
File systems are explicit association lists, the CA is an explicit list of
CertificateSigningRequest resources, and key material is identified by a
natural number; the DER/PEM encoding of a certificate request is abstracted
to the content it certifies (subject common name, organization, bound key)
together with the random nonce its ECDSA signature draws from the entropy
stream.
-/

namespace Registration

/-- Raw contents of a local file in the key store: either a PEM-encoded
private key carrying key material `material`, or arbitrary bytes that do not
parse as a key. -/
inductive FileData where
  | keyPEM (material : Nat) : FileData
  | raw (contents : String) : FileData
deriving DecidableEq

/-- Errors of the enrollment core, following the spec taxonomy; the Go code
returns untyped errors, each constructor records which return site produced
it (csr.go lines 49, 53, 57, and the RequestCertificate failure). -/
inductive Err where
  | validation : Err
  | keyError : Err
  | parseError : Err
  | encoding : Err
  | submission : Err
deriving DecidableEq

/-- Lookup in an association-list file system (first binding wins). -/
def lookupFS {α : Type} : List (String × α) → String → Option α
  | [], _ => none
  | (p, d) :: rest, path => if p = path then some d else lookupFS rest path

/-- Write a file: the new binding shadows any previous one. -/
def insertFS {α : Type} (fs : List (String × α)) (path : String) (d : α) :
    List (String × α) :=
  (path, d) :: fs

/-- File system holding private-key files. -/
abbrev KeyFS := List (String × FileData)

/-- Model of keyutil.ParsePrivateKeyPEM: succeeds exactly on PEM key data,
returning the key material. -/
def ParsePrivateKeyPEM : FileData → Except Err Nat
  | FileData.keyPEM k => Except.ok k
  | FileData.raw _ => Except.error Err.parseError

/-- Model of keyutil's verifyKeyData: the data parses as a private key. -/
def verifyKeyData (d : FileData) : Bool :=
  match ParsePrivateKeyPEM d with
  | Except.ok _ => true
  | Except.error _ => false

/-- Model of keyutil.LoadOrGenerateKeyFile: if the file at `keyPath` exists
and its contents parse as a key, return them unchanged without touching the
file system; otherwise generate a fresh key (material supplied by
`freshKey`, standing for the entropy source), persist it at `keyPath`, and
return it, with the Bool reporting whether generation happened. -/
def LoadOrGenerateKeyFile (fs : KeyFS) (freshKey : Nat) (keyPath : String) :
    FileData × Bool × KeyFS :=
  match lookupFS fs keyPath with
  | some d =>
      if verifyKeyData d then (d, false, fs)
      else (FileData.keyPEM freshKey, true,
        insertFS fs keyPath (FileData.keyPEM freshKey))
  | none => (FileData.keyPEM freshKey, true,
      insertFS fs keyPath (FileData.keyPEM freshKey))

/-- KeySize constant of csr.go. -/
def KeySize : Nat := 2048

/-- ExpirationSeconds constant of csr.go: requested certificate validity,
one year. -/
def ExpirationSeconds : Nat := 86400 * 365

/-- ByohCSROrg constant of csr.go. -/
def ByohCSROrg : String := "byoh:hosts"

/-- ByohCSRCNFormat constant of csr.go (a Go format string with one verb). -/
def ByohCSRCNFormat : String := "byoh:host:%s"

/-- ByohCSRNameFormat constant of csr.go (a Go format string with one verb). -/
def ByohCSRNameFormat : String := "byoh-csr-%s"

/-- TmpPrivateKey constant of csr.go: the fixed private-key file path. -/
def TmpPrivateKey : String := "byoh-client.key.tmp"

/-- certv1.KubeAPIServerClientSignerName, the signer passed at csr.go line 69. -/
def KubeAPIServerClientSignerName : String := "kubernetes.io/kube-apiserver-client"

/-- fmt.Sprintf(ByohCSRCNFormat, hostname): the subject common name built at
csr.go line 83. -/
def byohCSRCommonName (hostname : String) : String := "byoh:host:" ++ hostname

/-- fmt.Sprintf(ByohCSRNameFormat, hostname): the CSR resource name built at
csr.go line 68. -/
def byohCSRName (hostname : String) : String := "byoh-csr-" ++ hostname

/-- Content certified by a PKCS#10 certificate request: subject common name,
subject organization, and the keypair (identified by its material) bound to
the request. The DER bytes and PEM wrapping are abstracted to this content. -/
structure CSRContent where
  commonName : String
  organization : List String
  publicKey : Nat
deriving DecidableEq

/-- The PEM-encoded bytes of a PKCS#10 certificate request: they certify a
content (subject and bound key) and embed a signature over it. The key that
keyutil provisions is ECDSA P-256, whose signing draws a random nonce, so
the byte encoding additionally depends on the entropy consumed while
signing; `signatureNonce` records that draw. -/
structure CSRBytes where
  content : CSRContent
  signatureNonce : Nat
deriving DecidableEq

/-- Model of x509.CreateCertificateRequest followed by the PEM encoding of
csr.go lines 88-96: produces the request bytes for the given subject,
signed by `privKey`. The `rand` argument stands for the rand.Reader stream
passed at line 88: the randomized ECDSA signature makes the resulting bytes
depend on it, while the certified content depends only on the subject and
the key. -/
def CreateCertificateRequest (rand : Nat) (commonName : String)
    (organization : List String) (privKey : Nat) : CSRBytes :=
  ⟨⟨commonName, organization, privKey⟩, rand⟩

/-- generateCSR of csr.go lines 79-97: builds the request template with
common name fmt.Sprintf(ByohCSRCNFormat, hostname) and organization
ByohCSROrg, then signs and PEM-encodes it. -/
def generateCSR (rand : Nat) (hostname : String) (privKey : Nat) : CSRBytes :=
  CreateCertificateRequest rand (byohCSRCommonName hostname) [ByohCSROrg] privKey

/-- certv1.KeyUsage values used by this code. -/
inductive KeyUsage where
  | clientAuth : KeyUsage
deriving DecidableEq

/-- A CertificateSigningRequest resource as stored CA-side: name, the UID
the API server assigned, the certified request content, the requested
signer, the requested validity in seconds, and the requested usages.
The resource's spec.Request holds the submitted PEM bytes, but every check
client-go performs on them goes through parsing (subject comparison and key
binding); the embedding therefore stores that parsed content. -/
structure CertificateSigningRequest where
  name : String
  uid : String
  request : CSRContent
  signerName : String
  expirationSeconds : Nat
  usages : List KeyUsage
deriving DecidableEq

/-- CA-side state: the list of existing CertificateSigningRequest resources. -/
abbrev CAState := List CertificateSigningRequest

/-- Get the resource with the given name, if any. -/
def findCSR : CAState → String → Option CertificateSigningRequest
  | [], _ => none
  | o :: rest, name => if o.name = name then some o else findCSR rest name

/-- Model of client-go's ensureCompatible check on an already existing
resource: both requests are parsed and the retrieved one must certify the
same subject and the same keypair as the one being submitted, for the same
signer and usages; the signature bytes themselves (hence the nonce) are
never compared. -/
def ensureCompatible (existing : CertificateSigningRequest) (req : CSRBytes)
    (signerName : String) (usages : List KeyUsage) : Bool :=
  decide (existing.request = req.content ∧ existing.signerName = signerName ∧
    existing.usages = usages)

/-- Model of k8s.io/client-go csr.RequestCertificate: create the
CertificateSigningRequest under `name`; when a resource with that name
already exists, reuse it if it is compatible (returning its name and UID
without creating anything), and fail otherwise. `freshUID` stands for the
UID the API server would assign to a newly created resource. -/
def RequestCertificate (ca : CAState) (freshUID : String) (csrData : CSRBytes)
    (name signerName : String) (expirationSeconds : Nat)
    (usages : List KeyUsage) : Except Err (String × String) × CAState :=
  match findCSR ca name with
  | none =>
      (Except.ok (name, freshUID),
        (⟨name, freshUID, csrData.content, signerName, expirationSeconds,
            usages⟩ :
          CertificateSigningRequest) :: ca)
  | some existing =>
      if ensureCompatible existing csrData signerName usages then
        (Except.ok (existing.name, existing.uid), ca)
      else (Except.error Err.submission, ca)

/-- The ByohCSR receiver of csr.go lines 40-43; the BootstrapClient field is
modelled by the CA state inside `World`, and PrivateKey starts as Go's nil
slice, modelled by `none`. -/
structure ByohCSR where
  PrivateKey : Option FileData
deriving DecidableEq

/-- Everything outside the receiver that RequestBYOHClientCert touches: the
local key-file system, the CA-side resources reached through the bootstrap
client, and the entropy the key generator, the API server and the signer
would draw on. -/
structure World where
  fs : KeyFS
  ca : CAState
  freshKey : Nat
  freshUID : String
  rand : Nat
deriving DecidableEq

/-- The (string, types.UID, error) triple returned by RequestBYOHClientCert;
Go's nil error is `none`. -/
structure CertRequestResult where
  reqName : String
  reqUID : String
  err : Option Err
deriving DecidableEq

/-- RequestBYOHClientCert of csr.go lines 47-77: reject an empty hostname;
load or generate the private key at TmpPrivateKey; parse it; record the key
bytes in the receiver's PrivateKey field; build the CSR; and submit it under
fmt.Sprintf(ByohCSRNameFormat, hostname) for the kube-apiserver-client
signer with client-auth usage and ExpirationSeconds of requested validity. -/
def RequestBYOHClientCert (bcsr : ByohCSR) (w : World) (hostname : String) :
    ByohCSR × World × CertRequestResult :=
  if hostname = "" then (bcsr, w, ⟨"", "", some Err.validation⟩)
  else
    let L := LoadOrGenerateKeyFile w.fs w.freshKey TmpPrivateKey
    match ParsePrivateKeyPEM L.1 with
    | Except.error _ =>
        (bcsr, ⟨L.2.2, w.ca, w.freshKey, w.freshUID, w.rand⟩,
          ⟨"", "", some Err.parseError⟩)
    | Except.ok privateKey =>
        let R := RequestCertificate w.ca w.freshUID
          (generateCSR w.rand hostname privateKey) (byohCSRName hostname)
          KubeAPIServerClientSignerName ExpirationSeconds [KeyUsage.clientAuth]
        match R.1 with
        | Except.ok nu =>
            (⟨some L.1⟩, ⟨L.2.2, R.2, w.freshKey, w.freshUID, w.rand⟩,
              ⟨nu.1, nu.2, none⟩)
        | Except.error e =>
            (⟨some L.1⟩, ⟨L.2.2, R.2, w.freshKey, w.freshUID, w.rand⟩,
              ⟨"", "", some e⟩)

/-- restclient.Config, restricted to the fields WriteKubeconfigFromBootstrapping
reads. -/
structure RestConfig where
  Host : String
  Insecure : Bool
  CAFile : String
  CAData : String
deriving DecidableEq

/-- clientcmdapi.Cluster, restricted to the fields csr.go sets. -/
structure Cluster where
  Server : String
  InsecureSkipTLSVerify : Bool
  CertificateAuthority : String
  CertificateAuthorityData : String
deriving DecidableEq

/-- clientcmdapi.AuthInfo, restricted to the fields csr.go sets. -/
structure AuthInfo where
  ClientCertificate : String
  ClientKey : String
deriving DecidableEq

/-- clientcmdapi.Context, restricted to the fields csr.go sets. -/
structure Context where
  Cluster : String
  AuthInfo : String
  Namespace : String
deriving DecidableEq

/-- clientcmdapi.Config, restricted to the fields csr.go sets; the Go maps
are association lists. -/
structure Config where
  Clusters : List (String × Cluster)
  AuthInfos : List (String × AuthInfo)
  Contexts : List (String × Context)
  CurrentContext : String
deriving DecidableEq

/-- The kubeconfig value built at csr.go lines 120-147: CA trust comes from
the bootstrap config's CAFile when that is set, and from its inline CAData
only when CAFile is empty; one cluster, auth and context entry each, under
the fixed names, with current-context bound to the context entry. -/
def buildKubeconfigData (bootstrapClientConfig : RestConfig)
    (certData keyData : String) : Config :=
  let caFile := bootstrapClientConfig.CAFile
  let caData := if caFile = "" then bootstrapClientConfig.CAData else ""
  ⟨[("default-cluster",
      ⟨bootstrapClientConfig.Host, bootstrapClientConfig.Insecure, caFile, caData⟩)],
    [("default-auth", ⟨certData, keyData⟩)],
    [("default-context", ⟨"default-cluster", "default-auth", "default"⟩)],
    "default-context"⟩

/-- File system holding text files, a file being its list of lines. -/
abbrev TextFS := List (String × List String)

/-- Model of clientcmd.Write, the YAML serialization clientcmd.WriteToFile
performs, abstracted to a list of text lines. -/
def serializeConfig (c : Config) : List String :=
  ["apiVersion: v1", "kind: Config"]
    ++ ("clusters:" :: (c.Clusters.map (fun e =>
        ["- cluster:",
         "    certificate-authority: " ++ e.2.CertificateAuthority,
         "    certificate-authority-data: " ++ e.2.CertificateAuthorityData,
         "    server: " ++ e.2.Server,
         "  name: " ++ e.1])).flatten)
    ++ ("users:" :: (c.AuthInfos.map (fun e =>
        ["- user:",
         "    client-certificate: " ++ e.2.ClientCertificate,
         "    client-key: " ++ e.2.ClientKey,
         "  name: " ++ e.1])).flatten)
    ++ ("contexts:" :: (c.Contexts.map (fun e =>
        ["- context:",
         "    cluster: " ++ e.2.Cluster,
         "    user: " ++ e.2.AuthInfo,
         "    namespace: " ++ e.2.Namespace,
         "  name: " ++ e.1])).flatten)
    ++ ["current-context: " ++ c.CurrentContext]

/-- Model of clientcmd.WriteToFile's persistence step, os.WriteFile: the
target file is opened with O_TRUNC and the serialized content is then
written in order, in place; no temporary file and no rename are involved. -/
def WriteToFile (fs : TextFS) (path : String) (content : List String) : TextFS :=
  insertFS fs path content

/-- Crash-observable contents of the target file while os.WriteFile runs:
after the truncating open and after each partially completed write the file
holds a prefix of the final content (the empty prefix being the freshly
truncated file, the full prefix the completed write). -/
def writeCrashContents (content : List String) : List (List String) :=
  (List.range (content.length + 1)).map (fun n => content.take n)

/-- Crash-observable file-system states while os.WriteFile runs. -/
def writeCrashStates (fs : TextFS) (path : String) (content : List String) :
    List TextFS :=
  (writeCrashContents content).map (fun c => insertFS fs path c)

/-- WriteKubeconfigFromBootstrapping of csr.go lines 119-151: build the
kubeconfig from the bootstrap client config and the obtained cert/key, then
marshal it to disk with clientcmd.WriteToFile. -/
def WriteKubeconfigFromBootstrapping (fs : TextFS)
    (bootstrapClientConfig : RestConfig)
    (kubeconfigPath certData keyData : String) : TextFS :=
  WriteToFile fs kubeconfigPath
    (serializeConfig (buildKubeconfigData bootstrapClientConfig certData keyData))

/-- Crash-observable states of an interrupted WriteKubeconfigFromBootstrapping. -/
def writeKubeconfigCrashStates (fs : TextFS)
    (bootstrapClientConfig : RestConfig)
    (kubeconfigPath certData keyData : String) : List TextFS :=
  writeCrashStates fs kubeconfigPath
    (serializeConfig (buildKubeconfigData bootstrapClientConfig certData keyData))


theorem lookup_insert_self {α : Type} (fs : List (String × α)) (path : String)
    (d : α) : lookupFS (insertFS fs path d) path = some d := by
  simp [insertFS, lookupFS]

theorem verify_parse (d : FileData) (h : verifyKeyData d = true) :
    ∃ k, ParsePrivateKeyPEM d = Except.ok k := by
  cases d with
  | keyPEM k => exact ⟨k, rfl⟩
  | raw s => simp [verifyKeyData, ParsePrivateKeyPEM] at h

theorem loadOrGenerate_lookup (fs : KeyFS) (fk : Nat) (p : String) :
    lookupFS (LoadOrGenerateKeyFile fs fk p).2.2 p
        = some (LoadOrGenerateKeyFile fs fk p).1 ∧
      verifyKeyData (LoadOrGenerateKeyFile fs fk p).1 = true := by
  cases hl : lookupFS fs p with
  | none =>
    simp [LoadOrGenerateKeyFile, hl, lookup_insert_self, verifyKeyData,
      ParsePrivateKeyPEM]
  | some d =>
    cases d with
    | keyPEM k =>
      simp [LoadOrGenerateKeyFile, hl, verifyKeyData, ParsePrivateKeyPEM]
    | raw s =>
      simp [LoadOrGenerateKeyFile, hl, verifyKeyData, ParsePrivateKeyPEM,
        lookup_insert_self]

theorem loadOrGenerate_parses (fs : KeyFS) (fk : Nat) (p : String) :
    ∃ k, ParsePrivateKeyPEM (LoadOrGenerateKeyFile fs fk p).1 = Except.ok k :=
  verify_parse _ (loadOrGenerate_lookup fs fk p).2

theorem loadOrGenerate_stable (fs : KeyFS) (fk fk2 : Nat) (p : String) :
    LoadOrGenerateKeyFile (LoadOrGenerateKeyFile fs fk p).2.2 fk2 p
      = ((LoadOrGenerateKeyFile fs fk p).1, false,
          (LoadOrGenerateKeyFile fs fk p).2.2) := by
  obtain ⟨h1, h2⟩ := loadOrGenerate_lookup fs fk p
  rcases hE : LoadOrGenerateKeyFile fs fk p with ⟨d, g, fs1⟩
  rw [hE] at h1 h2
  simp only at h1 h2
  simp [LoadOrGenerateKeyFile, h1, h2]

theorem findCSR_name (ca : CAState) (nm : String) (o : CertificateSigningRequest)
    (h : findCSR ca nm = some o) : o.name = nm := by
  induction ca with
  | nil => simp [findCSR] at h
  | cons x rest ih =>
    simp only [findCSR] at h
    split at h
    · injection h with h2
      subst h2
      assumption
    · exact ih h

theorem requestCertificate_fresh (ca : CAState) (u : String) (csrData : CSRBytes)
    (name sig : String) (exp : Nat) (us : List KeyUsage)
    (hf : findCSR ca name = none) :
    RequestCertificate ca u csrData name sig exp us
      = (Except.ok (name, u), ⟨name, u, csrData.content, sig, exp, us⟩ :: ca) := by
  simp [RequestCertificate, hf]

theorem requestCertificate_stable (ca : CAState) (u u2 : String)
    (csrData : CSRBytes) (name sig : String) (exp : Nat)
    (us : List KeyUsage) (r : String × String) (ca1 : CAState)
    (h : RequestCertificate ca u csrData name sig exp us = (Except.ok r, ca1)) :
    RequestCertificate ca1 u2 csrData name sig exp us = (Except.ok r, ca1) := by
  cases hf : findCSR ca name with
  | none =>
    simp only [RequestCertificate, hf, Prod.mk.injEq, Except.ok.injEq] at h
    obtain ⟨h1, h2⟩ := h
    subst h1
    subst h2
    simp [RequestCertificate, findCSR, ensureCompatible]
  | some existing =>
    simp only [RequestCertificate, hf] at h
    split at h
    · simp only [Prod.mk.injEq, Except.ok.injEq] at h
      obtain ⟨h1, h2⟩ := h
      subst h1
      subst h2
      simp only [RequestCertificate, hf]
      rw [if_pos]
      assumption
    · simp at h

theorem requestCertificate_found (ca : CAState) (u : String)
    (csrData : CSRBytes) (name sig : String) (exp : Nat)
    (us : List KeyUsage) (r : String × String) (ca1 : CAState)
    (h : RequestCertificate ca u csrData name sig exp us = (Except.ok r, ca1)) :
    ∃ obj, findCSR ca1 r.1 = some obj ∧ obj.request = csrData.content ∧
      obj.signerName = sig ∧ obj.usages = us := by
  cases hf : findCSR ca name with
  | none =>
    simp only [RequestCertificate, hf, Prod.mk.injEq, Except.ok.injEq] at h
    obtain ⟨h1, h2⟩ := h
    subst h1
    subst h2
    refine ⟨⟨name, u, csrData.content, sig, exp, us⟩, ?_, rfl, rfl, rfl⟩
    simp [findCSR]
  | some existing =>
    simp only [RequestCertificate, hf] at h
    split at h
    · simp only [Prod.mk.injEq, Except.ok.injEq] at h
      obtain ⟨h1, h2⟩ := h
      subst h1
      subst h2
      have hc : ensureCompatible existing csrData sig us = true := by assumption
      simp only [ensureCompatible, decide_eq_true_eq] at hc
      obtain ⟨hreq, hsig, hus⟩ := hc
      refine ⟨existing, ?_, hreq, hsig, hus⟩
      have hnm := findCSR_name ca name existing hf
      rw [show (existing.name, existing.uid).1 = existing.name from rfl, hnm]
      exact hf
    · simp at h

theorem submit_success_run (bcsr : ByohCSR) (w : World) (hostname : String)
    (hh : ¬hostname = "") (d : FileData) (g : Bool) (fs1 : KeyFS) (k : Nat)
    (hL : LoadOrGenerateKeyFile w.fs w.freshKey TmpPrivateKey = (d, g, fs1))
    (hk : ParsePrivateKeyPEM d = Except.ok k)
    (r : String × String) (ca1 : CAState)
    (hR : RequestCertificate w.ca w.freshUID (generateCSR w.rand hostname k)
        (byohCSRName hostname) KubeAPIServerClientSignerName ExpirationSeconds
        [KeyUsage.clientAuth] = (Except.ok r, ca1)) :
    RequestBYOHClientCert bcsr w hostname
      = (⟨some d⟩, ⟨fs1, ca1, w.freshKey, w.freshUID, w.rand⟩,
          ⟨r.1, r.2, none⟩) := by
  simp [RequestBYOHClientCert, hh, hL, hk, hR]

/-- Concrete empty receiver used by the witnesses: a ByohCSR whose
PrivateKey is Go's nil. -/
def bcsr0 : ByohCSR := ⟨none⟩

/-- Concrete initial world used by the witnesses: no key file, no CA-side
resources, fresh key material 7, fresh UID "uid-1". -/
def w0 : World := ⟨[], [], 7, "uid-1", 0⟩

/-- Concrete text file system used for the persistence claims: the
kubeconfig path already holds a prior file. -/
def tfs0 : TextFS := [("config", ["old-line"])]

/-- Concrete bootstrap client config used for the persistence claims. -/
def bc0 : RestConfig := ⟨"https://cluster.example:6443", false, "", "ca-bytes"⟩

/-- C1: Submit is idempotent by request name: when a RequestBYOHClientCert
call succeeds, running it again with the same host identifier (hence the
same persisted key) is a complete no-op — it returns the same receiver,
world (in particular the same CA state, so no duplicate
CertificateSigningRequest is created) and the same requestName/requestID. -/
theorem byoh_submit_idempotent (bcsr : ByohCSR) (w : World) (hostname : String)
    (hsucc : (RequestBYOHClientCert bcsr w hostname).2.2.err = none) :
    RequestBYOHClientCert (RequestBYOHClientCert bcsr w hostname).1
        (RequestBYOHClientCert bcsr w hostname).2.1 hostname
      = RequestBYOHClientCert bcsr w hostname := by
  by_cases hh : hostname = ""
  · rw [hh] at hsucc
    simp [RequestBYOHClientCert] at hsucc
  · rcases hL : LoadOrGenerateKeyFile w.fs w.freshKey TmpPrivateKey with ⟨d, g, fs1⟩
    have hparse := loadOrGenerate_parses w.fs w.freshKey TmpPrivateKey
    rw [hL] at hparse
    obtain ⟨k, hk⟩ := hparse
    rcases hR : RequestCertificate w.ca w.freshUID (generateCSR w.rand hostname k)
        (byohCSRName hostname) KubeAPIServerClientSignerName ExpirationSeconds
        [KeyUsage.clientAuth] with ⟨res, ca1⟩
    cases res with
    | error e =>
      have e1 : (RequestBYOHClientCert bcsr w hostname).2.2.err = some e := by
        simp [RequestBYOHClientCert, hh, hL, hk, hR]
      simp [e1] at hsucc
    | ok r =>
      have e1 := submit_success_run bcsr w hostname hh d g fs1 k hL hk r ca1 hR
      have hL2 : LoadOrGenerateKeyFile fs1 w.freshKey TmpPrivateKey
          = (d, false, fs1) := by
        have hs := loadOrGenerate_stable w.fs w.freshKey w.freshKey TmpPrivateKey
        rw [hL] at hs
        exact hs
      have hR2 := requestCertificate_stable w.ca w.freshUID w.freshUID
        (generateCSR w.rand hostname k) (byohCSRName hostname)
        KubeAPIServerClientSignerName ExpirationSeconds [KeyUsage.clientAuth]
        r ca1 hR
      have e2 := submit_success_run ⟨some d⟩
        ⟨fs1, ca1, w.freshKey, w.freshUID, w.rand⟩ hostname hh d false fs1 k
        hL2 hk r ca1 hR2
      rw [e1]
      exact e2

/-- C1 witness: a concrete successful submission for host "node-1" from an
empty world, rerun a second time. -/
theorem byoh_submit_idempotent_witness :
    RequestBYOHClientCert (RequestBYOHClientCert bcsr0 w0 "node-1").1
        (RequestBYOHClientCert bcsr0 w0 "node-1").2.1 "node-1"
      = RequestBYOHClientCert bcsr0 w0 "node-1" :=
  byoh_submit_idempotent bcsr0 w0 "node-1" (by decide)

/-- C2 counterexample: for host identifier "node-1" the submission succeeds,
yet the request is not named "enroll-node-1", and no created resource
carries the common name "identity:host:node-1": the claimed strings are not
the ones the code produces. -/
theorem node1_spec_names_refuted :
    (RequestBYOHClientCert bcsr0 w0 "node-1").2.2.err = none ∧
    (RequestBYOHClientCert bcsr0 w0 "node-1").2.2.reqName ≠ "enroll-node-1" ∧
    (∀ obj ∈ (RequestBYOHClientCert bcsr0 w0 "node-1").2.1.ca,
      obj.request.commonName ≠ "identity:host:node-1") := by decide

/-- C2 amended: for host identifier "node-1" the CSR is built with subject
common name "byoh:host:node-1" and Submit creates an enrollment request
named "byoh-csr-node-1". -/
theorem node1_actual_names :
    (RequestBYOHClientCert bcsr0 w0 "node-1").2.2.err = none ∧
    (RequestBYOHClientCert bcsr0 w0 "node-1").2.2.reqName = "byoh-csr-node-1" ∧
    ((findCSR (RequestBYOHClientCert bcsr0 w0 "node-1").2.1.ca
        "byoh-csr-node-1").map (fun o => o.request.commonName))
      = some "byoh:host:node-1" := by decide

/-- C3: LoadOrGenerateKeyFile returns the existing key file unchanged (no
write) whenever it exists and parses; when the file is missing or its
contents do not parse, it generates a new key, persists it at the same
path, and returns it without failing. -/
theorem loadOrGenerateKeyFile_spec (fs : KeyFS) (fresh : Nat) (path : String) :
    (∀ d k, lookupFS fs path = some d → ParsePrivateKeyPEM d = Except.ok k →
      LoadOrGenerateKeyFile fs fresh path = (d, false, fs)) ∧
    ((lookupFS fs path = none ∨
        (∃ d e, lookupFS fs path = some d ∧
          ParsePrivateKeyPEM d = Except.error e)) →
      LoadOrGenerateKeyFile fs fresh path
          = (FileData.keyPEM fresh, true,
              insertFS fs path (FileData.keyPEM fresh)) ∧
        lookupFS (insertFS fs path (FileData.keyPEM fresh)) path
          = some (FileData.keyPEM fresh) ∧
        ParsePrivateKeyPEM (FileData.keyPEM fresh) = Except.ok fresh) := by
  constructor
  · intro d k hd hk
    simp [LoadOrGenerateKeyFile, hd, verifyKeyData, hk]
  · intro hcase
    refine ⟨?_, lookup_insert_self fs path (FileData.keyPEM fresh), rfl⟩
    cases hcase with
    | inl hnone => simp [LoadOrGenerateKeyFile, hnone]
    | inr hsome =>
      obtain ⟨d, e, hd, he⟩ := hsome
      simp [LoadOrGenerateKeyFile, hd, verifyKeyData, he]

/-- C3 witness: a parsable key file is returned unchanged, and an
unparsable one is regenerated and persisted. -/
theorem loadOrGenerateKeyFile_spec_witness :
    LoadOrGenerateKeyFile [(TmpPrivateKey, FileData.keyPEM 5)] 9 TmpPrivateKey
        = (FileData.keyPEM 5, false, [(TmpPrivateKey, FileData.keyPEM 5)]) ∧
      LoadOrGenerateKeyFile [(TmpPrivateKey, FileData.raw "garbage")] 9
          TmpPrivateKey
        = (FileData.keyPEM 9, true,
            insertFS [(TmpPrivateKey, FileData.raw "garbage")] TmpPrivateKey
              (FileData.keyPEM 9)) :=
  ⟨(loadOrGenerateKeyFile_spec [(TmpPrivateKey, FileData.keyPEM 5)] 9
      TmpPrivateKey).1 (FileData.keyPEM 5) 5 (by decide) rfl,
    ((loadOrGenerateKeyFile_spec [(TmpPrivateKey, FileData.raw "garbage")] 9
      TmpPrivateKey).2 (Or.inr ⟨FileData.raw "garbage", Err.parseError,
        by decide, rfl⟩)).1⟩

/-- C4: on every successful Submit, the persisted key file, the receiver's
PrivateKey field and the submitted CSR agree: the PrivateKey field holds
exactly the persisted bytes, those bytes parse to a key, and the resource
reachable under the returned request name is bound to that very key (and to
the common name derived from the host identifier). -/
theorem submit_key_matches_persisted (bcsr : ByohCSR) (w : World)
    (hostname : String)
    (hsucc : (RequestBYOHClientCert bcsr w hostname).2.2.err = none) :
    ∃ d k obj,
      lookupFS (RequestBYOHClientCert bcsr w hostname).2.1.fs TmpPrivateKey
          = some d ∧
      (RequestBYOHClientCert bcsr w hostname).1.PrivateKey = some d ∧
      ParsePrivateKeyPEM d = Except.ok k ∧
      findCSR (RequestBYOHClientCert bcsr w hostname).2.1.ca
          (RequestBYOHClientCert bcsr w hostname).2.2.reqName = some obj ∧
      obj.request.publicKey = k ∧
      obj.request.commonName = byohCSRCommonName hostname := by
  by_cases hh : hostname = ""
  · rw [hh] at hsucc
    simp [RequestBYOHClientCert] at hsucc
  · rcases hL : LoadOrGenerateKeyFile w.fs w.freshKey TmpPrivateKey with ⟨d, g, fs1⟩
    have hparse := loadOrGenerate_parses w.fs w.freshKey TmpPrivateKey
    rw [hL] at hparse
    obtain ⟨k, hk⟩ := hparse
    rcases hR : RequestCertificate w.ca w.freshUID (generateCSR w.rand hostname k)
        (byohCSRName hostname) KubeAPIServerClientSignerName ExpirationSeconds
        [KeyUsage.clientAuth] with ⟨res, ca1⟩
    cases res with
    | error e =>
      have e1 : (RequestBYOHClientCert bcsr w hostname).2.2.err = some e := by
        simp [RequestBYOHClientCert, hh, hL, hk, hR]
      simp [e1] at hsucc
    | ok r =>
      have e1 := submit_success_run bcsr w hostname hh d g fs1 k hL hk r ca1 hR
      obtain ⟨obj, hobj, hreq, hsig, hus⟩ :=
        requestCertificate_found w.ca w.freshUID (generateCSR w.rand hostname k)
          (byohCSRName hostname) KubeAPIServerClientSignerName ExpirationSeconds
          [KeyUsage.clientAuth] r ca1 hR
      refine ⟨d, k, obj, ?_, ?_, hk, ?_, ?_, ?_⟩
      · rw [e1]
        have hlk := loadOrGenerate_lookup w.fs w.freshKey TmpPrivateKey
        rw [hL] at hlk
        exact hlk.1
      · rw [e1]
      · rw [e1]
        exact hobj
      · rw [hreq]
        rfl
      · rw [hreq]
        rfl

/-- C4 witness: the invariant at the concrete successful "node-1" run. -/
theorem submit_key_matches_persisted_witness :
    ∃ d k obj,
      lookupFS (RequestBYOHClientCert bcsr0 w0 "node-1").2.1.fs TmpPrivateKey
          = some d ∧
      (RequestBYOHClientCert bcsr0 w0 "node-1").1.PrivateKey = some d ∧
      ParsePrivateKeyPEM d = Except.ok k ∧
      findCSR (RequestBYOHClientCert bcsr0 w0 "node-1").2.1.ca
          (RequestBYOHClientCert bcsr0 w0 "node-1").2.2.reqName = some obj ∧
      obj.request.publicKey = k ∧
      obj.request.commonName = byohCSRCommonName "node-1" :=
  submit_key_matches_persisted bcsr0 w0 "node-1" (by decide)

/-- C5: submitting with an empty host identifier fails with exactly the
validation error ("hostname is not valid"), returns empty
requestName/requestID, and leaves the receiver and the whole world
untouched — no other error class and no side effect occurs for this input. -/
theorem submit_empty_hostname_validation (bcsr : ByohCSR) (w : World) :
    RequestBYOHClientCert bcsr w ""
      = (bcsr, w, ⟨"", "", some Err.validation⟩) := by
  simp [RequestBYOHClientCert]

/-- C6: the built kubeconfig has exactly one cluster entry, named
"default-cluster" and carrying the bootstrap endpoint and CA trust, exactly
one auth entry "default-auth" carrying the client cert and key, exactly one
context entry "default-context" binding the two, and current-context set to
"default-context". -/
theorem kubeconfig_canonical_entries (bc : RestConfig) (certData keyData : String) :
    ∃ cl au cx,
      (buildKubeconfigData bc certData keyData).Clusters
          = [("default-cluster", cl)] ∧
      cl.Server = bc.Host ∧
      cl.CertificateAuthority = bc.CAFile ∧
      cl.CertificateAuthorityData = (if bc.CAFile = "" then bc.CAData else "") ∧
      (buildKubeconfigData bc certData keyData).AuthInfos
          = [("default-auth", au)] ∧
      au.ClientCertificate = certData ∧ au.ClientKey = keyData ∧
      (buildKubeconfigData bc certData keyData).Contexts
          = [("default-context", cx)] ∧
      cx.Cluster = "default-cluster" ∧ cx.AuthInfo = "default-auth" ∧
      (buildKubeconfigData bc certData keyData).CurrentContext
          = "default-context" :=
  ⟨_, _, _, rfl, rfl, rfl, rfl, rfl, rfl, rfl, rfl, rfl, rfl, rfl⟩

/-- C7 counterexample: with a prior file at the kubeconfig path, one of the
crash-observable states of WriteKubeconfigFromBootstrapping (the freshly
truncated file) holds neither the prior contents nor the new serialized
config: the write is not atomic. -/
theorem writeKubeconfig_atomicity_refuted :
    ∃ s ∈ writeKubeconfigCrashStates tfs0 bc0 "config" "certpem" "keypem",
      lookupFS s "config" ≠ some ["old-line"] ∧
      lookupFS s "config"
        ≠ some (serializeConfig (buildKubeconfigData bc0 "certpem" "keypem")) := by
  decide

/-- C7 amended: WriteKubeconfigFromBootstrapping serializes the config and
writes it to the target path in place — open with truncate, then write,
with no temporary file and no rename — so an uninterrupted write replaces
the file with the full serialized config, while an interruption can leave a
truncated (in particular empty) or partially-written file. -/
theorem writeKubeconfig_in_place (fs : TextFS) (bc : RestConfig)
    (path certData keyData : String) :
    WriteKubeconfigFromBootstrapping fs bc path certData keyData
        = insertFS fs path
            (serializeConfig (buildKubeconfigData bc certData keyData)) ∧
      insertFS fs path [] ∈ writeKubeconfigCrashStates fs bc path certData keyData := by
  constructor
  · rfl
  · simp only [writeKubeconfigCrashStates, writeCrashStates, writeCrashContents,
      List.mem_map, List.mem_range]
    exact ⟨[], ⟨0, Nat.succ_pos _, rfl⟩, rfl⟩

/-- C8 counterexample: two invocations of the CSR builder with the same
host identifier and key but successive entropy states do not produce
identical CSR bytes — the randomized ECDSA signature that the code feeds
rand.Reader into x509.CreateCertificateRequest for makes the byte encoding
differ between invocations, so byte-level determinism fails. -/
theorem generateCSR_byte_determinism_refuted :
    generateCSR 0 "node-1" 7 ≠ generateCSR 1 "node-1" 7 := by decide

/-- C8 amended: the CSR builder performs no network I/O and is pure given
its inputs — the host identifier, the key, and the entropy it draws the
signature nonce from (it reads no file system or CA state, neither of which
appears in its type): two invocations with the same host identifier and key
produce CSRs whose certified content (subject and bound key) is identical,
the byte encodings differing only in the randomized signature drawn from
the respective entropy states. -/
theorem generateCSR_content_pure (r1 r2 : Nat) (hostname : String)
    (privKey : Nat) :
    (generateCSR r1 hostname privKey).content
        = (generateCSR r2 hostname privKey).content ∧
      (generateCSR r1 hostname privKey).signatureNonce = r1 ∧
      (generateCSR r2 hostname privKey).signatureNonce = r2 :=
  ⟨rfl, rfl, rfl⟩

/-- C9: a Submit for a host identifier with no pre-existing request
succeeds, and the CertificateSigningRequest it creates carries a requested
validity of exactly 86400 * 365 seconds (the ExpirationSeconds constant,
one year). -/
theorem submit_requested_validity (bcsr : ByohCSR) (w : World)
    (hostname : String) (hh : hostname ≠ "")
    (hfresh : findCSR w.ca (byohCSRName hostname) = none) :
    (RequestBYOHClientCert bcsr w hostname).2.2.err = none ∧
    ((findCSR (RequestBYOHClientCert bcsr w hostname).2.1.ca
        (RequestBYOHClientCert bcsr w hostname).2.2.reqName).map
      (fun o => o.expirationSeconds)) = some (86400 * 365) := by
  rcases hL : LoadOrGenerateKeyFile w.fs w.freshKey TmpPrivateKey with ⟨d, g, fs1⟩
  have hparse := loadOrGenerate_parses w.fs w.freshKey TmpPrivateKey
  rw [hL] at hparse
  obtain ⟨k, hk⟩ := hparse
  have hR := requestCertificate_fresh w.ca w.freshUID
    (generateCSR w.rand hostname k) (byohCSRName hostname)
    KubeAPIServerClientSignerName ExpirationSeconds [KeyUsage.clientAuth] hfresh
  have e1 := submit_success_run bcsr w hostname hh d g fs1 k hL hk
    (byohCSRName hostname, w.freshUID) _ hR
  rw [e1]
  exact ⟨rfl, by simp [findCSR, ExpirationSeconds]⟩

/-- C9 witness: the concrete "node-1" submission from an empty CA creates a
request with one year of requested validity. -/
theorem submit_requested_validity_witness :
    (RequestBYOHClientCert bcsr0 w0 "node-1").2.2.err = none ∧
    ((findCSR (RequestBYOHClientCert bcsr0 w0 "node-1").2.1.ca
        (RequestBYOHClientCert bcsr0 w0 "node-1").2.2.reqName).map
      (fun o => o.expirationSeconds)) = some (86400 * 365) :=
  submit_requested_validity bcsr0 w0 "node-1" (by decide) (by decide)

/-- C10: in the built kubeconfig the cluster entry's inline CA data is taken
from the bootstrap config exactly when the bootstrap CAFile is empty;
when CAFile is set the entry references that file and the inline data is
left empty, so the two trust sources are never both populated. -/
theorem kubeconfig_ca_trust_exclusive (bc : RestConfig)
    (certData keyData : String) :
    ∃ cl,
      (buildKubeconfigData bc certData keyData).Clusters
          = [("default-cluster", cl)] ∧
      (bc.CAFile = "" → cl.CertificateAuthority = "" ∧
        cl.CertificateAuthorityData = bc.CAData) ∧
      (bc.CAFile ≠ "" → cl.CertificateAuthority = bc.CAFile ∧
        cl.CertificateAuthorityData = "") ∧
      ¬(cl.CertificateAuthority ≠ "" ∧ cl.CertificateAuthorityData ≠ "") := by
  refine ⟨⟨bc.Host, bc.Insecure, bc.CAFile,
    if bc.CAFile = "" then bc.CAData else ""⟩, ?_, ?_, ?_, ?_⟩
  · simp [buildKubeconfigData]
  · intro h
    simp [h]
  · intro h
    simp [h]
  · intro hcon
    by_cases hca : bc.CAFile = ""
    · exact hcon.1 hca
    · obtain ⟨h1, h2⟩ := hcon
      rw [if_neg hca] at h2
      exact h2 rfl

/-- C10 witness: with an empty CAFile the inline data is carried and the
file reference is empty; with a set CAFile the file is referenced and the
inline data is empty. -/
theorem kubeconfig_ca_trust_exclusive_witness :
    (∃ cl, (buildKubeconfigData ⟨"https://a", false, "", "CADATA"⟩ "c" "k").Clusters
        = [("default-cluster", cl)] ∧
      cl.CertificateAuthority = "" ∧ cl.CertificateAuthorityData = "CADATA") ∧
    (∃ cl, (buildKubeconfigData ⟨"https://a", false, "/etc/ca.crt", "CADATA"⟩
          "c" "k").Clusters = [("default-cluster", cl)] ∧
      cl.CertificateAuthority = "/etc/ca.crt" ∧
      cl.CertificateAuthorityData = "") := by
  constructor
  · obtain ⟨cl, hcl, hemp, _, _⟩ :=
      kubeconfig_ca_trust_exclusive ⟨"https://a", false, "", "CADATA"⟩ "c" "k"
    exact ⟨cl, hcl, (hemp rfl).1, (hemp rfl).2⟩
  · obtain ⟨cl, hcl, _, hset, _⟩ :=
      kubeconfig_ca_trust_exclusive ⟨"https://a", false, "/etc/ca.crt", "CADATA"⟩
        "c" "k"
    exact ⟨cl, hcl, (hset (by decide)).1, (hset (by decide)).2⟩

end Registration
